import Mathlib

/-!
Shallow embedding of `plainbox/impl/dbus/service.py`: the DBus property
descriptor class `property`, the lazily cached per-class
property-interface map, and the `Get`/`Set`/`GetAll`/`PropertiesChanged`
members of `Object`, together with proofs about them.

The instance state of a bus object is an abstract type `σ` and the wire
value universe is an abstract type `V`; accessor functions are modelled
as Lean functions that may fail with an exception.
-/

set_option autoImplicit false

namespace Plainbox

/-- Exceptions that cross the modelled code: `dbus.exceptions.DBusException`
with its positional string arguments, Python `TypeError`, and any other
exception raised by user accessor code, represented by its `repr` string. -/
inductive Exc where
  | dbusException (args : List String)
  | typeError (msg : String)
  | userError (rep : String)
deriving DecidableEq

instance {ε α : Type} [DecidableEq ε] [DecidableEq α] : DecidableEq (Except ε α) :=
  fun x y =>
    match x, y with
    | .ok a, .ok b =>
        if h : a = b then .isTrue (h ▸ rfl)
        else .isFalse (fun hc => by cases hc; exact h rfl)
    | .error a, .error b =>
        if h : a = b then .isTrue (h ▸ rfl)
        else .isFalse (fun hc => by cases hc; exact h rfl)
    | .ok _, .error _ => .isFalse (fun hc => by cases hc)
    | .error _, .ok _ => .isFalse (fun hc => by cases hc)

/-- Python `repr` of an exception, as interpolated by `"{!r}".format(exc)`.
For a foreign user exception the stored string is its repr already. -/
def excRepr : Exc → String
  | .dbusException args => "DBusException(" ++ String.intercalate ", " args ++ ")"
  | .typeError msg => "TypeError(" ++ msg ++ ")"
  | .userError rep => rep

/-- The constant `dbus.PROPERTIES_IFACE`. -/
def PROPERTIES_IFACE : String := "org.freedesktop.DBus.Properties"

/-- Wire effect of one `PropertiesChanged` signal emission. -/
structure SignalEvent (V : Type) where
  interface_name : String
  changed_properties : List (String × V)
  invalidated_properties : List String
deriving DecidableEq

/-- The `_dbus_property` slot of a descriptor: `None` or a string. -/
abbrev PropName := Option String

/-- Rendering of a `PropName` by Python `str.format`. -/
def pnStr : PropName → String
  | none => "None"
  | some s => s

/-- The `property` class of `service.py` (lines 57-186): per-property
metadata plus the bound accessor functions.  A bound setter may also emit
`PropertiesChanged` signals; the embedding records those explicitly in the
setter's result. -/
structure property (σ V : Type) where
  _signature : String
  _dbus_interface : String
  _dbus_property : PropName
  _getf : Option (σ → Except Exc V)
  _setf : Option (σ → V → Except Exc (σ × List (SignalEvent V)))
  _implicit_setter : Bool

variable {σ V : Type}

/-- `property.dbus_access_flag` (lines 84-100): `"readwrite"`, `"read"` or
`"write"` according to which accessors are bound; raises `TypeError` when
neither is bound. -/
def property.dbus_access_flag (d : property σ V) : Except Exc String :=
  match d._getf, d._setf with
  | some _, some _ => .ok "readwrite"
  | some _, none => .ok "read"
  | none, some _ => .ok "write"
  | none, none => .error (.typeError "property provides neither readable nor writable")

/-- `property.__get__` (lines 169-176) with a live instance: raises a
DBusException when no getter is bound, else delegates to the getter. -/
def property.__get__ (d : property σ V) (s : σ) : Except Exc V :=
  match d._getf with
  | none => .error (.dbusException ["property is not readable"])
  | some f => f s

/-- `property.__set__` (lines 178-182): raises a DBusException when no
setter is bound, else delegates to the setter. -/
def property.__set__ (d : property σ V) (s : σ) (v : V) :
    Except Exc (σ × List (SignalEvent V)) :=
  match d._setf with
  | none => .error (.dbusException ["property is not writable"])
  | some f => f s v

/-- `InterfaceType._reflect_on_property` (lines 45-50): renders the
introspection fragment of one property; computing the access flag may
raise, and such an exception propagates out of introspection. -/
def _reflect_on_property (d : property σ V) : Except Exc String :=
  match d.dbus_access_flag with
  | .error e => .error e
  | .ok flag =>
      .ok ("    <property name=\"" ++ pnStr d._dbus_property ++ "\" type=\"" ++
        d._signature ++ "\" access=\"" ++ flag ++ "\"/>\n")

/-- One value in a class `__dict__`: either a dbus `property` descriptor or
any other Python attribute (method, plain value, ...) whose value lies
outside the modelled wire-value universe. -/
inductive Attr (σ V : Type) where
  | prop (d : property σ V)
  | plain

/-- Static model of a Python class: the entries of its own `__dict__` and
the entries contributed by its base classes, already flattened in
method-resolution order. -/
structure PyClass (σ V : Type) where
  ownDict : List (String × Attr σ V)
  baseDict : List (String × Attr σ V)

/-- Dictionary lookup in an association list (Python `d.get(k)` /
`d[k]`). -/
def alFind {κ ν : Type} [DecidableEq κ] : List (κ × ν) → κ → Option ν
  | [], _ => none
  | p :: rest, key => if p.1 = key then some p.2 else alFind rest key

/-- Dictionary update `d[k] = v`: replaces the value in place when the key
exists, otherwise appends, exactly as a Python dict preserves insertion
order. -/
def alInsert {κ ν : Type} [DecidableEq κ] : List (κ × ν) → κ → ν → List (κ × ν)
  | [], key, val => [(key, val)]
  | p :: rest, key, val =>
      if p.1 = key then (key, val) :: rest else p :: alInsert rest key val

/-- Stable insertion into a sorted list of names, used to model the sorted
output of Python `dir()`. -/
def insertSorted (x : String) : List String → List String
  | [] => [x]
  | y :: ys => if x ≤ y then x :: y :: ys else y :: insertSorted x ys

/-- Sort a list of names, as `dir()` sorts its result. -/
def sortNames (l : List String) : List String := l.foldr insertSorted []

/-- Python `dir(cls)`: the sorted, duplicate-free collection of attribute
names of the class and of its bases. -/
def dirNames (c : PyClass σ V) : List String :=
  sortNames ((c.ownDict.map Prod.fst ++ c.baseDict.map Prod.fst).dedup)

/-- Attribute resolution on the class (`getattr(cls, name)` order): the
class's own `__dict__` first, then the base classes. -/
def classAttr (c : PyClass σ V) (name : String) : Option (Attr σ V) :=
  match alFind c.ownDict name with
  | some a => some a
  | none => alFind c.baseDict name

/-- Python `getattr(self, name)` restricted to the modelled attribute
universe: a `property` data descriptor runs `__get__`; a missing attribute
raises `AttributeError`; the value of a non-descriptor attribute lies
outside the modelled universe `V`, so that branch is represented by an
opaque non-DBus error (no property-interface map built by
`_build_property_iface_map` for the same class ever resolves to it). -/
def getattrI (c : PyClass σ V) (s : σ) (name : String) : Except Exc V :=
  match classAttr c name with
  | some (.prop d) => d.__get__ s
  | some .plain => .error (.userError ("non-property attribute " ++ name))
  | none => .error (.userError ("AttributeError: " ++ name))

/-- Python `setattr(self, name, value)`: a `property` data descriptor runs
`__set__`; otherwise the assignment writes the instance `__dict__`, which
is invisible to the modelled state, so the call succeeds without effect. -/
def setattrI (c : PyClass σ V) (s : σ) (name : String) (v : V) :
    Except Exc (σ × List (SignalEvent V)) :=
  match classAttr c name with
  | some (.prop d) => d.__set__ s v
  | some .plain => .ok (s, [])
  | none => .ok (s, [])

/-- The property-interface map: interface name → (property name →
attribute name of the descriptor on the class). -/
abbrev Pif := List (String × List (PropName × String))

/-- Map lookup through both levels of a `Pif`. -/
def pifLookup (pif : Pif) (iface : String) (pn : PropName) : Option String :=
  match alFind pif iface with
  | none => none
  | some props => alFind props pn

/-- The two dict statements of the build loop body: ensure the interface
key exists, then set `pif[iface][pn] = name`. -/
def pifInsert (pif : Pif) (iface : String) (pn : PropName) (name : String) : Pif :=
  match alFind pif iface with
  | none => alInsert pif iface [(pn, name)]
  | some props => alInsert pif iface (alInsert props pn name)

/-- One iteration of the loop of `_build_property_iface_map`: look the name
up in the class's own `__dict__` (`cls.__dict__.get(name)`), skip anything
that is not a `property` descriptor, else insert it. -/
def buildStep (c : PyClass σ V) (pif : Pif) (name : String) : Pif :=
  match alFind c.ownDict name with
  | some (Attr.prop obj) => pifInsert pif obj._dbus_interface obj._dbus_property name
  | _ => pif

/-- `Object._build_property_iface_map` (lines 335-351): iterate over
`dir(cls)` and index every name whose value in the class's own `__dict__`
is a `property` descriptor under `(interface, property name)`. -/
def Object._build_property_iface_map (c : PyClass σ V) : Pif :=
  (dirNames c).foldl (buildStep c) []

/-- The MRO view of the `_property_iface_map` class attribute: one slot per
class, head first for the class itself; the `None` default installed on
`Object` (line 321) is the all-`none` tail. -/
abbrev CacheChain := List (Option Pif)

/-- Reading `cls._property_iface_map`: the first slot along the MRO that
holds a built map, else Python `None`. -/
def readPifmAttr (chain : CacheChain) : Option Pif := chain.findSome? id

/-- The assignment `cls._property_iface_map = pif`, which writes the own
slot of the receiving class. -/
def setPifmAttr (chain : CacheChain) (pif : Pif) : CacheChain :=
  match chain with
  | [] => []
  | _ :: rest => some pif :: rest

/-- Result of `_get_property_iface_map`: the map returned, whether this
call ran `_build_property_iface_map`, and the cache state afterwards. -/
structure PifmResult where
  pif : Pif
  didBuild : Bool
  chain : CacheChain
deriving DecidableEq

/-- `Object._get_property_iface_map` (lines 320-333): return the cached
map when the attribute read yields one, else build, publish on the class
and return. -/
def Object._get_property_iface_map (c : PyClass σ V) (chain : CacheChain) :
    PifmResult :=
  match readPifmAttr chain with
  | some pif => ⟨pif, false, chain⟩
  | none =>
      let pif := Object._build_property_iface_map c
      ⟨pif, true, setPifmAttr chain pif⟩

/-- The DBusException raised for an unknown interface name. -/
def unknownInterfaceExc (iface : String) : Exc :=
  .dbusException [PROPERTIES_IFACE, "No such interface " ++ iface]

/-- The DBusException raised for an unknown property name. -/
def unknownPropertyExc (iface : String) (pn : PropName) : Exc :=
  .dbusException [PROPERTIES_IFACE,
    "No such property " ++ iface ++ ":" ++ pnStr pn]

/-- The wrapped error raised when a getter fails unexpectedly. -/
def getFailedExc (iface : String) (pn : PropName) (e : Exc) : Exc :=
  .dbusException [PROPERTIES_IFACE,
    "Unable to get property interface/property " ++ iface ++ ":" ++ pnStr pn ++
      ": " ++ excRepr e]

/-- The wrapped error raised when a setter fails unexpectedly. -/
def setFailedExc (iface : String) (pn : PropName) (e : Exc) : Exc :=
  .dbusException [PROPERTIES_IFACE,
    "Unable to set property " ++ iface ++ ":" ++ pnStr pn ++ ": " ++ excRepr e]

/-- Result of one `Get` call: the value or exception, and whether the
`logger.exception("runaway exception from Get...")` call fired. -/
structure GetOutcome (V : Type) where
  result : Except Exc V
  loggedRunaway : Bool
deriving DecidableEq

/-- Result of one `Set` call: the new instance state or exception, the
signals emitted during the call, and whether the runaway log fired. -/
structure SetOutcome (σ V : Type) where
  result : Except Exc σ
  signals : List (SignalEvent V)
  loggedRunaway : Bool
deriving DecidableEq

/-- Result of one `GetAll` call. -/
structure GetAllOutcome (V : Type) where
  result : Except Exc (List (PropName × V))
  loggedRunaway : Bool
deriving DecidableEq

/-- Body of `Object.Get` (lines 236-264) after the map has been obtained:
the two membership checks, then `getattr(self, name)` inside the
`try`/`except` that re-raises DBusExceptions unchanged and logs and wraps
every other exception. -/
def Object.GetBody (c : PyClass σ V) (pif : Pif) (s : σ) (iface : String)
    (pn : PropName) : GetOutcome V :=
  match alFind pif iface with
  | none => ⟨.error (unknownInterfaceExc iface), false⟩
  | some props =>
    match alFind props pn with
    | none => ⟨.error (unknownPropertyExc iface pn), false⟩
    | some name =>
      match getattrI c s name with
      | .ok v => ⟨.ok v, false⟩
      | .error (.dbusException args) => ⟨.error (.dbusException args), false⟩
      | .error e => ⟨.error (getFailedExc iface pn e), true⟩

/-- `Object.Get`: fetch (or build) the property-interface map, then run
the body; also returns the cache state afterwards. -/
def Object.Get (c : PyClass σ V) (chain : CacheChain) (s : σ) (iface : String)
    (pn : PropName) : GetOutcome V × CacheChain :=
  let r := Object._get_property_iface_map c chain
  (Object.GetBody c r.pif s iface pn, r.chain)

/-- Body of `Object.Set` (lines 269-293) after the map has been obtained:
the two membership checks, then `setattr(self, name, value)` inside the
`try`/`except` that re-raises DBusExceptions unchanged and logs and wraps
every other exception. -/
def Object.SetBody (c : PyClass σ V) (pif : Pif) (s : σ) (iface : String)
    (pn : PropName) (v : V) : SetOutcome σ V :=
  match alFind pif iface with
  | none => ⟨.error (unknownInterfaceExc iface), [], false⟩
  | some props =>
    match alFind props pn with
    | none => ⟨.error (unknownPropertyExc iface pn), [], false⟩
    | some name =>
      match setattrI c s name v with
      | .ok (s', sigs) => ⟨.ok s', sigs, false⟩
      | .error (.dbusException args) => ⟨.error (.dbusException args), [], false⟩
      | .error e => ⟨.error (setFailedExc iface pn e), [], true⟩

/-- `Object.Set`: fetch (or build) the property-interface map, then run
the body; also returns the cache state afterwards. -/
def Object.Set (c : PyClass σ V) (chain : CacheChain) (s : σ) (iface : String)
    (pn : PropName) (v : V) : SetOutcome σ V × CacheChain :=
  let r := Object._get_property_iface_map c chain
  (Object.SetBody c r.pif s iface pn v, r.chain)

/-- The dict comprehension of `GetAll` (lines 306-309): call `Get` for
each registered property name in order; the first exception aborts the
whole comprehension. -/
def Object.GetAllLoop (c : PyClass σ V) (pif : Pif) (s : σ) (iface : String) :
    List (PropName × String) → GetAllOutcome V
  | [] => ⟨.ok [], false⟩
  | (pn, _) :: rest =>
    match Object.GetBody c pif s iface pn with
    | ⟨.error e, lg⟩ => ⟨.error e, lg⟩
    | ⟨.ok v, lg⟩ =>
      match Object.GetAllLoop c pif s iface rest with
      | ⟨.error e, lg2⟩ => ⟨.error e, lg || lg2⟩
      | ⟨.ok m, lg2⟩ => ⟨.ok ((pn, v) :: m), lg || lg2⟩

/-- Body of `Object.GetAll` (lines 298-309) after the map has been
obtained. -/
def Object.GetAllBody (c : PyClass σ V) (pif : Pif) (s : σ) (iface : String) :
    GetAllOutcome V :=
  match alFind pif iface with
  | none => ⟨.error (unknownInterfaceExc iface), false⟩
  | some props => Object.GetAllLoop c pif s iface props

/-- `Object.GetAll`: fetch (or build) the property-interface map, then run
the body; also returns the cache state afterwards. -/
def Object.GetAll (c : PyClass σ V) (chain : CacheChain) (s : σ)
    (iface : String) : GetAllOutcome V × CacheChain :=
  let r := Object._get_property_iface_map c chain
  (Object.GetAllBody c r.pif s iface, r.chain)

/-- `Object.PropertiesChanged` (lines 311-318): the signal-emitting
method; its wire effect is the emission of exactly this event. -/
def Object.PropertiesChanged (iface : String) (changed : List (String × V))
    (invalidated : List String) : SignalEvent V :=
  ⟨iface, changed, invalidated⟩

/-- First character of the human-readable message of a two-argument
DBusException; used to separate the lookup-error family (messages starting
with `No such ...`) from the wrapped accessor-failure family (messages
starting with `Unable to ...`). -/
def msgHead : Exc → Option Char
  | .dbusException (_ :: m :: _) => m.data.head?
  | _ => none

/-- Soundness invariant of the build fold: every entry of the accumulated
map points at a descriptor found in the class's own `__dict__` under the
recorded attribute name, with matching interface and property name. -/
def BuildSound (c : PyClass σ V) (pif : Pif) : Prop :=
  ∀ iface pn name, pifLookup pif iface pn = some name →
    ∃ d, alFind c.ownDict name = some (Attr.prop d) ∧
      d._dbus_interface = iface ∧ d._dbus_property = pn

/-! Concrete example classes used by witnesses and counterexamples; the
instance state and the wire value universe are both `String`. -/

/-- A storage getter: the instance state is the stored value. -/
def exGetter : String → Except Exc String := fun s => .ok s

/-- A storage setter that emits no signal. -/
def exSetter : String → String → Except Exc (String × List (SignalEvent String)) :=
  fun _ v => .ok (v, [])

/-- A read-write string property `color` on interface
`com.example.Widget`. -/
def colorProp : property String String :=
  ⟨"s", "com.example.Widget", some "color", some exGetter, some exSetter, false⟩

/-- A class declaring `colorProp` in its own `__dict__`. -/
def Widget : PyClass String String := ⟨[("color", Attr.prop colorProp)], []⟩

/-- A subclass of `Widget` declaring nothing of its own: `colorProp` is
visible only through the base class. -/
def SubWidget : PyClass String String := ⟨[], [("color", Attr.prop colorProp)]⟩

/-- A property `size` on the same interface, used as a subclass-only
declaration. -/
def sizeProp : property String String :=
  ⟨"s", "com.example.Widget", some "size", some exGetter, some exSetter, false⟩

/-- A subclass of `Widget` declaring `sizeProp` of its own while also
inheriting `colorProp`. -/
def SizedWidget : PyClass String String :=
  ⟨[("size", Attr.prop sizeProp)], [("color", Attr.prop colorProp)]⟩

/-- A property whose getter raises a foreign (non-DBus) exception whose
repr is `ValueError(boom)`. -/
def badProp : property String String :=
  ⟨"s", "com.example.Widget", some "bad",
    some (fun _ => .error (.userError "ValueError(boom)")),
    some (fun _ _ => .error (.userError "ValueError(boom)")), false⟩

/-- A class declaring only `badProp`. -/
def BadW : PyClass String String := ⟨[("bad", Attr.prop badProp)], []⟩

/-- A property with neither accessor bound. -/
def noneProp : property String String :=
  ⟨"s", "com.example.Bad", some "bad", none, none, false⟩

/-- A class declaring the accessor-less `noneProp`. -/
def BadDecl : PyClass String String := ⟨[("bad", Attr.prop noneProp)], []⟩

/-- A getter-only property. -/
def getOnlyProp : property String String :=
  ⟨"s", "com.example.Widget", some "ro", some exGetter, none, false⟩

/-- A setter-only property. -/
def setOnlyProp : property String String :=
  ⟨"s", "com.example.Widget", some "wo", none, some exSetter, true⟩

/-- A property whose accessors raise a DBusException of their own. -/
def dbusRaisingProp : property String String :=
  ⟨"s", "com.example.Widget", some "guarded",
    some (fun _ => .error (.dbusException ["org.example.Error.Denied", "nope"])),
    some (fun _ _ => .error (.dbusException ["org.example.Error.Denied", "nope"])), false⟩

/-- A class declaring only `dbusRaisingProp`. -/
def GuardedW : PyClass String String := ⟨[("guarded", Attr.prop dbusRaisingProp)], []⟩

/-- A setter that stores the value and emits one `PropertiesChanged`
signal explicitly. -/
def notifySetter : String → String → Except Exc (String × List (SignalEvent String)) :=
  fun _ v => .ok (v, [Object.PropertiesChanged "com.example.Widget" [("notified", v)] []])

/-- A read-write property whose setter notifies explicitly. -/
def notifyProp : property String String :=
  ⟨"s", "com.example.Widget", some "notified", some exGetter, some notifySetter, false⟩

/-- A class declaring only `notifyProp`. -/
def NotifyW : PyClass String String := ⟨[("notified", Attr.prop notifyProp)], []⟩

/-! Helper lemmas about the dictionary and sorting operations. -/

theorem alFind_alInsert {κ ν : Type} [DecidableEq κ] (l : List (κ × ν))
    (key : κ) (val : ν) (k' : κ) :
    alFind (alInsert l key val) k' = if k' = key then some val else alFind l k' := by
  induction l with
  | nil =>
    by_cases h : k' = key
    · simp [alFind, alInsert, h]
    · simp [alFind, alInsert, h, Ne.symm h]
  | cons p rest ih =>
    by_cases hp : p.1 = key
    · by_cases h : k' = key
      · simp [alInsert, alFind, hp, h]
      · simp [alInsert, alFind, hp, h, Ne.symm h]
    · by_cases hk : p.1 = k'
      · have : k' ≠ key := fun e => hp (hk.trans e)
        simp [alInsert, alFind, hp, hk, this]
      · simp [alInsert, alFind, hp, hk, ih]

theorem alFind_mem_keys {κ ν : Type} [DecidableEq κ] (l : List (κ × ν))
    (key : κ) (val : ν) (h : alFind l key = some val) : key ∈ l.map Prod.fst := by
  induction l with
  | nil => simp [alFind] at h
  | cons p rest ih =>
    by_cases hp : p.1 = key
    · simp [hp.symm]
    · simp [alFind, hp] at h
      simp [ih h]

theorem pifLookup_pifInsert (pif : Pif) (iface : String) (pn : PropName)
    (name : String) (i' : String) (pn' : PropName) :
    pifLookup (pifInsert pif iface pn name) i' pn' =
      if i' = iface ∧ pn' = pn then some name else pifLookup pif i' pn' := by
  unfold pifInsert pifLookup
  cases hfind : alFind pif iface with
  | none =>
    rw [alFind_alInsert]
    by_cases hi : i' = iface
    · subst hi
      by_cases hp : pn' = pn
      · simp [hfind, alFind, hp]
      · simp [hfind, alFind, hp, Ne.symm hp]
    · simp [hi]
  | some props =>
    rw [alFind_alInsert]
    by_cases hi : i' = iface
    · subst hi
      by_cases hp : pn' = pn
      · simp [hfind, alFind_alInsert, hp]
      · simp [hfind, alFind_alInsert, hp, Ne.symm hp]
    · simp [hi]

theorem mem_insertSorted (x y : String) (l : List String) :
    y ∈ insertSorted x l ↔ y = x ∨ y ∈ l := by
  induction l with
  | nil => simp [insertSorted]
  | cons z zs ih =>
    by_cases h : x ≤ z
    · simp [insertSorted, h]
    · simp [insertSorted, h, ih]
      tauto

theorem mem_sortNames (x : String) (l : List String) :
    x ∈ sortNames l ↔ x ∈ l := by
  induction l with
  | nil => simp [sortNames]
  | cons y ys ih =>
    simp only [sortNames, List.foldr_cons] at ih ⊢
    rw [mem_insertSorted, ih, List.mem_cons]

theorem mem_dirNames (c : PyClass σ V) (name : String) :
    name ∈ dirNames c ↔
      name ∈ c.ownDict.map Prod.fst ∨ name ∈ c.baseDict.map Prod.fst := by
  unfold dirNames
  rw [mem_sortNames, List.mem_dedup, List.mem_append]

/-! Invariants of `_build_property_iface_map`. -/

theorem buildStep_sound (c : PyClass σ V) (pif : Pif) (nm : String)
    (h : BuildSound c pif) : BuildSound c (buildStep c pif nm) := by
  intro iface pn name hl
  unfold buildStep at hl
  cases hown : alFind c.ownDict nm with
  | none => rw [hown] at hl; exact h iface pn name hl
  | some a =>
    cases a with
    | plain => rw [hown] at hl; exact h iface pn name hl
    | prop obj =>
      rw [hown] at hl
      rw [pifLookup_pifInsert] at hl
      by_cases hc : iface = obj._dbus_interface ∧ pn = obj._dbus_property
      · rw [if_pos hc] at hl
        cases hl
        exact ⟨obj, hown, hc.1.symm, hc.2.symm⟩
      · rw [if_neg hc] at hl
        exact h iface pn name hl

theorem buildFold_sound (c : PyClass σ V) (names : List String) (pif : Pif)
    (h : BuildSound c pif) : BuildSound c (names.foldl (buildStep c) pif) := by
  induction names generalizing pif with
  | nil => exact h
  | cons nm rest ih => exact ih _ (buildStep_sound c pif nm h)

theorem build_sound (c : PyClass σ V) :
    BuildSound c (Object._build_property_iface_map c) := by
  apply buildFold_sound
  intro iface pn name hl
  simp [pifLookup, alFind] at hl

/-- Once a key is present in the accumulated map, every further build step
keeps it present (possibly re-pointing it at a later colliding name). -/
theorem buildStep_preserves_key (c : PyClass σ V) (pif : Pif) (nm : String)
    (iface : String) (pn : PropName)
    (h : pifLookup pif iface pn ≠ none) :
    pifLookup (buildStep c pif nm) iface pn ≠ none := by
  unfold buildStep
  cases hown : alFind c.ownDict nm with
  | none => exact h
  | some a =>
    cases a with
    | plain => exact h
    | prop obj =>
      rw [pifLookup_pifInsert]
      by_cases hc : iface = obj._dbus_interface ∧ pn = obj._dbus_property
      · simp [hc]
      · simpa [hc] using h

theorem buildFold_preserves_key (c : PyClass σ V) (names : List String)
    (pif : Pif) (iface : String) (pn : PropName)
    (h : pifLookup pif iface pn ≠ none) :
    pifLookup (names.foldl (buildStep c) pif) iface pn ≠ none := by
  induction names generalizing pif with
  | nil => exact h
  | cons nm rest ih => exact ih _ (buildStep_preserves_key c pif nm iface pn h)

/-- Completeness of the build fold: processing a name whose own-dict value
is a descriptor makes its `(interface, property name)` key present. -/
theorem buildFold_complete (c : PyClass σ V) (names : List String) (pif : Pif)
    (nm : String) (d : property σ V) (hmem : nm ∈ names)
    (hown : alFind c.ownDict nm = some (Attr.prop d)) :
    pifLookup (names.foldl (buildStep c) pif) d._dbus_interface d._dbus_property ≠ none := by
  induction names generalizing pif with
  | nil => cases hmem
  | cons x rest ih =>
    rcases List.mem_cons.mp hmem with hx | hx
    · subst hx
      rw [List.foldl_cons]
      apply buildFold_preserves_key
      unfold buildStep
      rw [hown, pifLookup_pifInsert]
      simp
    · rw [List.foldl_cons]
      exact ih _ hx

/-- Key-presence characterization of `_build_property_iface_map`: the pair
`(interface, property name)` is indexed iff some attribute of the class's
own `__dict__` is a `property` descriptor carrying exactly that interface
and property name.  Descriptors visible only through base classes are
never indexed, because the loop reads `cls.__dict__.get(name)`. -/
theorem build_key_iff (c : PyClass σ V) (iface : String) (pn : PropName) :
    pifLookup (Object._build_property_iface_map c) iface pn ≠ none ↔
      ∃ nm d, alFind c.ownDict nm = some (Attr.prop d) ∧
        d._dbus_interface = iface ∧ d._dbus_property = pn := by
  constructor
  · intro h
    cases hl : pifLookup (Object._build_property_iface_map c) iface pn with
    | none => exact absurd hl h
    | some name =>
      obtain ⟨d, hown, hi, hp⟩ := build_sound c iface pn name hl
      exact ⟨name, d, hown, hi, hp⟩
  · rintro ⟨nm, d, hown, hi, hp⟩
    subst hi; subst hp
    apply buildFold_complete c (dirNames c) [] nm d _ hown
    rw [mem_dirNames]
    exact Or.inl (alFind_mem_keys c.ownDict nm _ hown)

theorem alFind_eq_none_iff {κ ν : Type} [DecidableEq κ] (l : List (κ × ν)) (key : κ) :
    alFind l key = none ↔ key ∉ l.map Prod.fst := by
  induction l with
  | nil => simp [alFind]
  | cons p rest ih =>
    by_cases hp : p.1 = key
    · simp [alFind, hp]
    · simp [alFind, hp, ih, Ne.symm hp]

theorem string_data_append (a b : String) : (a ++ b).data = a.data ++ b.data := by
  cases a; cases b; rfl

theorem append_left_ne_nil (a b : String) (h : a.data ≠ []) : (a ++ b).data ≠ [] := by
  rw [string_data_append]
  intro hc
  exact h (List.append_eq_nil.mp hc).1

theorem head_append_of_ne_nil (a b : String) (h : a.data ≠ []) :
    (a ++ b).data.head? = a.data.head? := by
  rw [string_data_append]
  cases hd : a.data with
  | nil => exact absurd hd h
  | cons c t => rfl

theorem msgHead_unknownInterface (iface : String) :
    msgHead (unknownInterfaceExc iface) = some 'N' := by
  show ("No such interface " ++ iface).data.head? = some 'N'
  rw [head_append_of_ne_nil]
  · rfl
  · decide

theorem msgHead_unknownProperty (iface : String) (pn : PropName) :
    msgHead (unknownPropertyExc iface pn) = some 'N' := by
  show ("No such property " ++ iface ++ ":" ++ pnStr pn).data.head? = some 'N'
  rw [head_append_of_ne_nil, head_append_of_ne_nil, head_append_of_ne_nil]
  · rfl
  · decide
  · exact append_left_ne_nil _ _ (by decide)
  · exact append_left_ne_nil _ _ (append_left_ne_nil _ _ (by decide))

theorem msgHead_getFailed (iface : String) (pn : PropName) (e : Exc) :
    msgHead (getFailedExc iface pn e) = some 'U' := by
  have h0 : ("Unable to get property interface/property ").data ≠ [] := by decide
  have h1 := append_left_ne_nil "Unable to get property interface/property " iface h0
  have h2 := append_left_ne_nil _ ":" h1
  have h3 := append_left_ne_nil _ (pnStr pn) h2
  have h4 := append_left_ne_nil _ ": " h3
  show ("Unable to get property interface/property " ++ iface ++ ":" ++ pnStr pn ++
    ": " ++ excRepr e).data.head? = some 'U'
  rw [head_append_of_ne_nil _ _ h4, head_append_of_ne_nil _ _ h3,
    head_append_of_ne_nil _ _ h2, head_append_of_ne_nil _ _ h1,
    head_append_of_ne_nil _ _ h0]
  decide

theorem msgHead_setFailed (iface : String) (pn : PropName) (e : Exc) :
    msgHead (setFailedExc iface pn e) = some 'U' := by
  have h0 : ("Unable to set property ").data ≠ [] := by decide
  have h1 := append_left_ne_nil "Unable to set property " iface h0
  have h2 := append_left_ne_nil _ ":" h1
  have h3 := append_left_ne_nil _ (pnStr pn) h2
  have h4 := append_left_ne_nil _ ": " h3
  show ("Unable to set property " ++ iface ++ ":" ++ pnStr pn ++
    ": " ++ excRepr e).data.head? = some 'U'
  rw [head_append_of_ne_nil _ _ h4, head_append_of_ne_nil _ _ h3,
    head_append_of_ne_nil _ _ h2, head_append_of_ne_nil _ _ h1,
    head_append_of_ne_nil _ _ h0]
  decide

theorem unknownInterface_ne_getFailed (i1 i2 : String) (pn : PropName) (e : Exc) :
    unknownInterfaceExc i1 ≠ getFailedExc i2 pn e := by
  intro h
  have hh := congrArg msgHead h
  rw [msgHead_unknownInterface, msgHead_getFailed] at hh
  cases hh

theorem unknownInterface_ne_setFailed (i1 i2 : String) (pn : PropName) (e : Exc) :
    unknownInterfaceExc i1 ≠ setFailedExc i2 pn e := by
  intro h
  have hh := congrArg msgHead h
  rw [msgHead_unknownInterface, msgHead_setFailed] at hh
  cases hh

theorem unknownProperty_ne_getFailed (i1 i2 : String) (p1 p2 : PropName) (e : Exc) :
    unknownPropertyExc i1 p1 ≠ getFailedExc i2 p2 e := by
  intro h
  have hh := congrArg msgHead h
  rw [msgHead_unknownProperty, msgHead_getFailed] at hh
  cases hh

theorem unknownProperty_ne_setFailed (i1 i2 : String) (p1 p2 : PropName) (e : Exc) :
    unknownPropertyExc i1 p1 ≠ setFailedExc i2 p2 e := by
  intro h
  have hh := congrArg msgHead h
  rw [msgHead_unknownProperty, msgHead_setFailed] at hh
  cases hh

/-! Lemmas about the `GetAll` comprehension loop. -/

theorem getAllLoop_ok_keys (c : PyClass σ V) (pif : Pif) (s : σ) (iface : String)
    (props : List (PropName × String)) (m : List (PropName × V))
    (h : (Object.GetAllLoop c pif s iface props).result = .ok m) :
    m.map Prod.fst = props.map Prod.fst := by
  induction props generalizing m with
  | nil =>
    simp only [Object.GetAllLoop] at h
    cases h
    rfl
  | cons p rest ih =>
    obtain ⟨pn, nm⟩ := p
    simp only [Object.GetAllLoop] at h
    cases hg : Object.GetBody c pif s iface pn with
    | mk res lg =>
      rw [hg] at h
      cases res with
      | error e => cases h
      | ok v =>
        cases hrest : Object.GetAllLoop c pif s iface rest with
        | mk res2 lg2 =>
          rw [hrest] at h
          cases res2 with
          | error e => cases h
          | ok m2 =>
            cases h
            have := ih m2 (by rw [hrest])
            simp [this]

theorem getAllLoop_fails_of_mem (c : PyClass σ V) (pif : Pif) (s : σ)
    (iface : String) (props : List (PropName × String)) (pn : PropName)
    (e' : Exc) (hmem : pn ∈ props.map Prod.fst)
    (hfail : (Object.GetBody c pif s iface pn).result = .error e') :
    ∃ e2, (Object.GetAllLoop c pif s iface props).result = .error e2 := by
  induction props with
  | nil => cases hmem
  | cons p rest ih =>
    obtain ⟨pn0, nm0⟩ := p
    simp only [List.map_cons] at hmem
    simp only [Object.GetAllLoop]
    cases hg : Object.GetBody c pif s iface pn0 with
    | mk res lg =>
      cases res with
      | error e => exact ⟨e, rfl⟩
      | ok v =>
        have hpn : pn ∈ rest.map Prod.fst := by
          rcases List.mem_cons.mp hmem with h0 | h0
          · subst h0
            rw [hg] at hfail
            cases hfail
          · exact h0
        obtain ⟨e2, he2⟩ := ih hpn
        cases hrest : Object.GetAllLoop c pif s iface rest with
        | mk res2 lg2 =>
          rw [hrest] at he2
          simp at he2
          subst he2
          exact ⟨e2, rfl⟩

/-! Claim theorems. -/

/-- C1 counterexample: the class `SubWidget` inherits the descriptor
`colorProp` from its base class (it is in `baseDict`, not in `ownDict`),
yet `_build_property_iface_map` on `SubWidget` produces the empty map, so
the base-class descriptor is not present in the subclass's index, contrary
to the claim. -/
theorem C1_counterexample :
    alFind SubWidget.baseDict "color" = some (Attr.prop colorProp) ∧
    colorProp._dbus_interface = "com.example.Widget" ∧
    colorProp._dbus_property = some "color" ∧
    Object._build_property_iface_map SubWidget = [] :=
  ⟨rfl, rfl, rfl, by decide⟩

/-- C1, amended: building the index enumerates every attribute name of
the class, its own and inherited (`dir(cls)`), but retrieves each through
the class's own `__dict__` only; hence `(interface, property)` is indexed
exactly when a descriptor with that interface and property name sits in
the class's own `__dict__`, and a descriptor declared only on a base
class is absent from the subclass's index. -/
theorem C1_index_contains_exactly_own_descriptors (c : PyClass σ V)
    (iface : String) (pn : PropName) :
    pifLookup (Object._build_property_iface_map c) iface pn ≠ none ↔
      ∃ nm d, alFind c.ownDict nm = some (Attr.prop d) ∧
        d._dbus_interface = iface ∧ d._dbus_property = pn :=
  build_key_iff c iface pn

/-- C1 witness: on `Widget`, which declares `colorProp` in its own
`__dict__`, the key is indexed. -/
theorem C1_witness :
    pifLookup (Object._build_property_iface_map Widget) "com.example.Widget"
      (some "color") ≠ none :=
  (C1_index_contains_exactly_own_descriptors Widget "com.example.Widget"
    (some "color")).mpr ⟨"color", colorProp, rfl, rfl, rfl⟩

/-- C5: the property-interface map of a class is built at most once.  When
nothing is cached along the MRO, the lookup runs the build and publishes
the result on the class; immediately after any lookup, a further lookup
returns the very map just obtained, does not build again, and leaves the
cache unchanged; and the cache transition of `Get` is independent of the
instance the call is made on. -/
theorem C5_index_built_once_and_cached (c : PyClass σ V) (chain : CacheChain)
    (hne : chain ≠ []) :
    (readPifmAttr chain = none →
      Object._get_property_iface_map c chain =
        ⟨Object._build_property_iface_map c, true,
          setPifmAttr chain (Object._build_property_iface_map c)⟩) ∧
    Object._get_property_iface_map c (Object._get_property_iface_map c chain).chain =
      ⟨(Object._get_property_iface_map c chain).pif, false,
        (Object._get_property_iface_map c chain).chain⟩ ∧
    ∀ (s1 s2 : σ) (iface : String) (pn : PropName),
      (Object.Get c chain s1 iface pn).2 = (Object.Get c chain s2 iface pn).2 := by
  refine ⟨?_, ?_, ?_⟩
  · intro h0
    simp [Object._get_property_iface_map, h0]
  · cases hr : readPifmAttr chain with
    | some pif => simp [Object._get_property_iface_map, hr]
    | none =>
      cases chain with
      | nil => exact absurd rfl hne
      | cons a rest =>
        simp only [Object._get_property_iface_map, hr, setPifmAttr]
        rfl
  · intro s1 s2 iface pn
    rfl

/-- C5 witness: on `Widget` with a fresh cache, the first lookup builds
and caches, the second returns the cached map without building. -/
theorem C5_witness :
    Object._get_property_iface_map Widget [none] =
      ⟨Object._build_property_iface_map Widget, true,
        setPifmAttr [none] (Object._build_property_iface_map Widget)⟩ ∧
    Object._get_property_iface_map Widget
        (Object._get_property_iface_map Widget [none]).chain =
      ⟨(Object._get_property_iface_map Widget [none]).pif, false,
        (Object._get_property_iface_map Widget [none]).chain⟩ :=
  ⟨(C5_index_built_once_and_cached Widget [none] (by decide)).1 rfl,
    (C5_index_built_once_and_cached Widget [none] (by decide)).2.1⟩

/-- C9: when a base class's map is already cached (second slot of the MRO
chain) and the subclass `b` has no own cache, the lookup on `b` returns
the base map without building `b`'s own; consequently a property declared
only in `b`'s own `__dict__` and absent from the base map is unreachable:
`Get` and `Set` fail with a lookup error, and a successful `GetAll` result
never contains it. -/
theorem C9_subclass_reuses_base_cache (b : PyClass σ V) (rest : CacheChain)
    (pifA : Pif) (s : σ) (iface : String) (pn : PropName) (v : V)
    (nm : String) (d : property σ V)
    (hdecl : alFind b.ownDict nm = some (Attr.prop d))
    (hi : d._dbus_interface = iface) (hp : d._dbus_property = pn)
    (habsent : pifLookup pifA iface pn = none) :
    Object._get_property_iface_map b (none :: some pifA :: rest) =
      ⟨pifA, false, none :: some pifA :: rest⟩ ∧
    ((Object.Get b (none :: some pifA :: rest) s iface pn).1.result =
        .error (unknownInterfaceExc iface) ∨
      (Object.Get b (none :: some pifA :: rest) s iface pn).1.result =
        .error (unknownPropertyExc iface pn)) ∧
    ((Object.Set b (none :: some pifA :: rest) s iface pn v).1.result =
        .error (unknownInterfaceExc iface) ∨
      (Object.Set b (none :: some pifA :: rest) s iface pn v).1.result =
        .error (unknownPropertyExc iface pn)) ∧
    (∀ m, (Object.GetAll b (none :: some pifA :: rest) s iface).1.result = .ok m →
      alFind m pn = none) := by
  have hmap : Object._get_property_iface_map b (none :: some pifA :: rest) =
      ⟨pifA, false, none :: some pifA :: rest⟩ := rfl
  refine ⟨hmap, ?_, ?_, ?_⟩
  · cases hfi : alFind pifA iface with
    | none =>
      left
      show (Object.GetBody b pifA s iface pn).result = _
      simp [Object.GetBody, hfi]
    | some props =>
      right
      have hfp : alFind props pn = none := by
        unfold pifLookup at habsent
        rw [hfi] at habsent
        exact habsent
      show (Object.GetBody b pifA s iface pn).result = _
      simp [Object.GetBody, hfi, hfp]
  · cases hfi : alFind pifA iface with
    | none =>
      left
      show (Object.SetBody b pifA s iface pn v).result = _
      simp [Object.SetBody, hfi]
    | some props =>
      right
      have hfp : alFind props pn = none := by
        unfold pifLookup at habsent
        rw [hfi] at habsent
        exact habsent
      show (Object.SetBody b pifA s iface pn v).result = _
      simp [Object.SetBody, hfi, hfp]
  · intro m hok
    have hok' : (Object.GetAllBody b pifA s iface).result = .ok m := hok
    cases hfi : alFind pifA iface with
    | none =>
      unfold Object.GetAllBody at hok'
      rw [hfi] at hok'
      simp at hok'
    | some props =>
      have hfp : alFind props pn = none := by
        unfold pifLookup at habsent
        rw [hfi] at habsent
        exact habsent
      have hloop : (Object.GetAllLoop b pifA s iface props).result = .ok m := by
        unfold Object.GetAllBody at hok'
        rw [hfi] at hok'
        exact hok'
      have hkeys := getAllLoop_ok_keys b pifA s iface props m hloop
      rw [alFind_eq_none_iff, hkeys]
      rw [alFind_eq_none_iff] at hfp
      exact hfp

/-- C9 witness: `SizedWidget` declares `size` of its own; with `Widget`'s
map already cached on the base, the lookup reuses it, and `size` is
unreachable through `Get`, `Set` and `GetAll`. -/
theorem C9_witness :
    Object._get_property_iface_map SizedWidget
        (none :: some (Object._build_property_iface_map Widget) :: []) =
      ⟨Object._build_property_iface_map Widget, false,
        none :: some (Object._build_property_iface_map Widget) :: []⟩ ∧
    ((Object.Get SizedWidget
        (none :: some (Object._build_property_iface_map Widget) :: [])
        "red" "com.example.Widget" (some "size")).1.result =
      .error (unknownInterfaceExc "com.example.Widget") ∨
     (Object.Get SizedWidget
        (none :: some (Object._build_property_iface_map Widget) :: [])
        "red" "com.example.Widget" (some "size")).1.result =
      .error (unknownPropertyExc "com.example.Widget" (some "size"))) :=
  ⟨(C9_subclass_reuses_base_cache SizedWidget []
      (Object._build_property_iface_map Widget) "red" "com.example.Widget"
      (some "size") "blue" "size" sizeProp rfl rfl rfl (by decide)).1,
   (C9_subclass_reuses_base_cache SizedWidget []
      (Object._build_property_iface_map Widget) "red" "com.example.Widget"
      (some "size") "blue" "size" sizeProp rfl rfl rfl (by decide)).2.1⟩

/-- C2: an interface name absent from the object's property-interface map
makes both `Get` and `Set` fail with the unknown-interface error, and a
present interface with an absent property name makes both fail with the
unknown-property error; in all four cases the runaway-exception log does
not fire (no accessor ran), and neither lookup error equals any wrapped
accessor-failure error. -/
theorem C2_lookup_error_discipline (c : PyClass σ V) (chain : CacheChain)
    (s : σ) (iface : String) (pn : PropName) (v : V) :
    (alFind (Object._get_property_iface_map c chain).pif iface = none →
      (Object.Get c chain s iface pn).1 =
        ⟨.error (unknownInterfaceExc iface), false⟩ ∧
      (Object.Set c chain s iface pn v).1 =
        ⟨.error (unknownInterfaceExc iface), [], false⟩) ∧
    (∀ props, alFind (Object._get_property_iface_map c chain).pif iface = some props →
      alFind props pn = none →
      (Object.Get c chain s iface pn).1 =
        ⟨.error (unknownPropertyExc iface pn), false⟩ ∧
      (Object.Set c chain s iface pn v).1 =
        ⟨.error (unknownPropertyExc iface pn), [], false⟩) ∧
    (∀ e : Exc,
      unknownInterfaceExc iface ≠ getFailedExc iface pn e ∧
      unknownInterfaceExc iface ≠ setFailedExc iface pn e ∧
      unknownPropertyExc iface pn ≠ getFailedExc iface pn e ∧
      unknownPropertyExc iface pn ≠ setFailedExc iface pn e) := by
  refine ⟨?_, ?_, ?_⟩
  · intro h0
    constructor
    · show Object.GetBody c (Object._get_property_iface_map c chain).pif s iface pn = _
      simp [Object.GetBody, h0]
    · show Object.SetBody c (Object._get_property_iface_map c chain).pif s iface pn v = _
      simp [Object.SetBody, h0]
  · intro props h0 h1
    constructor
    · show Object.GetBody c (Object._get_property_iface_map c chain).pif s iface pn = _
      simp [Object.GetBody, h0, h1]
    · show Object.SetBody c (Object._get_property_iface_map c chain).pif s iface pn v = _
      simp [Object.SetBody, h0, h1]
  · intro e
    exact ⟨unknownInterface_ne_getFailed iface iface pn e,
      unknownInterface_ne_setFailed iface iface pn e,
      unknownProperty_ne_getFailed iface iface pn pn e,
      unknownProperty_ne_setFailed iface iface pn pn e⟩

/-- C2 witness: on `Widget`, `Get`/`Set` on the unknown interface
`com.example.Other` and on the unknown property `size` of the known
interface return exactly the lookup errors. -/
theorem C2_witness :
    ((Object.Get Widget [none] "red" "com.example.Other" (some "color")).1 =
        ⟨.error (unknownInterfaceExc "com.example.Other"), false⟩ ∧
      (Object.Set Widget [none] "red" "com.example.Other" (some "color") "blue").1 =
        ⟨.error (unknownInterfaceExc "com.example.Other"), [], false⟩) ∧
    ((Object.Get Widget [none] "red" "com.example.Widget" (some "size")).1 =
        ⟨.error (unknownPropertyExc "com.example.Widget" (some "size")), false⟩ ∧
      (Object.Set Widget [none] "red" "com.example.Widget" (some "size") "blue").1 =
        ⟨.error (unknownPropertyExc "com.example.Widget" (some "size")), [], false⟩) :=
  ⟨(C2_lookup_error_discipline Widget [none] "red" "com.example.Other"
      (some "color") "blue").1 (by decide),
    (C2_lookup_error_discipline Widget [none] "red" "com.example.Widget"
      (some "size") "blue").2.1 [(some "color", "color")] (by decide) (by decide)⟩

/-- C3: `GetAll` on an interface registered in the map returns, when it
succeeds, a mapping whose keys are exactly the property names registered
under that interface in order; if `Get` fails on any registered property
the whole call fails with an error (no partial mapping is possible, the
result being a single `Except` value); on an unregistered interface it
fails with unknown-interface. -/
theorem C3_getall_exact_and_atomic (c : PyClass σ V) (chain : CacheChain)
    (s : σ) (iface : String) :
    (alFind (Object._get_property_iface_map c chain).pif iface = none →
      (Object.GetAll c chain s iface).1.result =
        .error (unknownInterfaceExc iface)) ∧
    (∀ props, alFind (Object._get_property_iface_map c chain).pif iface = some props →
      (∀ m, (Object.GetAll c chain s iface).1.result = .ok m →
        m.map Prod.fst = props.map Prod.fst) ∧
      (∀ pn e', pn ∈ props.map Prod.fst →
        (Object.GetBody c (Object._get_property_iface_map c chain).pif s iface pn).result =
          .error e' →
        ∃ e2, (Object.GetAll c chain s iface).1.result = .error e2)) := by
  refine ⟨?_, ?_⟩
  · intro h0
    show (Object.GetAllBody c (Object._get_property_iface_map c chain).pif s iface).result = _
    unfold Object.GetAllBody
    rw [h0]
  · intro props h0
    constructor
    · intro m hok
      have hok' : (Object.GetAllBody c
          (Object._get_property_iface_map c chain).pif s iface).result = .ok m := hok
      unfold Object.GetAllBody at hok'
      rw [h0] at hok'
      exact getAllLoop_ok_keys c _ s iface props m hok'
    · intro pn e' hmem hfail
      obtain ⟨e2, he2⟩ :=
        getAllLoop_fails_of_mem c (Object._get_property_iface_map c chain).pif
          s iface props pn e' hmem hfail
      refine ⟨e2, ?_⟩
      show (Object.GetAllBody c (Object._get_property_iface_map c chain).pif s iface).result = _
      unfold Object.GetAllBody
      rw [h0]
      exact he2

/-- C3 witness: on `Widget`, `GetAll` of the declared interface succeeds
and its key set is exactly the registered property names; on the unknown
interface it fails with unknown-interface. -/
theorem C3_witness :
    (Object.GetAll Widget [none] "red" "com.example.Widget").1.result =
      .ok [(some "color", "red")] ∧
    [(some "color", "red")].map Prod.fst =
      [((some "color" : PropName), "color")].map Prod.fst ∧
    (Object.GetAll Widget [none] "red" "com.example.Other").1.result =
      .error (unknownInterfaceExc "com.example.Other") :=
  ⟨by decide,
    ((C3_getall_exact_and_atomic Widget [none] "red" "com.example.Widget").2
      [(some "color", "color")] (by decide)).1 [(some "color", "red")] (by decide),
    (C3_getall_exact_and_atomic Widget [none] "red" "com.example.Other").1 (by decide)⟩

/-- Reduction of `getattr` when the resolved attribute is a descriptor. -/
theorem getattrI_of_prop (c : PyClass σ V) (s : σ) (nm : String)
    (d : property σ V) (h : classAttr c nm = some (Attr.prop d)) :
    getattrI c s nm = d.__get__ s := by
  simp [getattrI, h]

/-- Reduction of `setattr` when the resolved attribute is a descriptor. -/
theorem setattrI_of_prop (c : PyClass σ V) (s : σ) (nm : String) (v : V)
    (d : property σ V) (h : classAttr c nm = some (Attr.prop d)) :
    setattrI c s nm v = d.__set__ s v := by
  simp [setattrI, h]

/-- C4 counterexample: the wrapped error raised when a getter fails is
not a sanitized, generic message: it embeds the repr of the original
internal failure verbatim (here `ValueError(boom)` appears inside the
message delivered to the caller), contrary to the claim's sanitization
clause. -/
theorem C4_counterexample :
    (Object.Get BadW [none] "x" "com.example.Widget" (some "bad")).1 =
      ⟨.error (.dbusException [PROPERTIES_IFACE,
        "Unable to get property interface/property com.example.Widget:bad: ValueError(boom)"]),
        true⟩ ∧
    "Unable to get property interface/property com.example.Widget:bad: ValueError(boom)" =
      "Unable to get property interface/property com.example.Widget:bad: " ++
        "ValueError(boom)" :=
  ⟨by decide, by decide⟩

/-- C4, amended: when a user-supplied getter or setter raises any
exception other than a DBusException, `Get`/`Set` catch it, log it (the
runaway log fires), and re-raise a generic property-access-failed
DBusException; the original exception type does not cross the boundary,
but the error message embeds the repr of the original exception rather
than being fully sanitized. -/
theorem C4_runaway_wrapped_and_logged (c : PyClass σ V) (chain : CacheChain)
    (s : σ) (iface : String) (pn : PropName) (v : V) :
    (∀ props nm d f e,
      alFind (Object._get_property_iface_map c chain).pif iface = some props →
      alFind props pn = some nm →
      classAttr c nm = some (Attr.prop d) →
      d._getf = some f → f s = .error e → (∀ args, e ≠ .dbusException args) →
      (Object.Get c chain s iface pn).1 =
        ⟨.error (getFailedExc iface pn e), true⟩) ∧
    (∀ props nm d g e,
      alFind (Object._get_property_iface_map c chain).pif iface = some props →
      alFind props pn = some nm →
      classAttr c nm = some (Attr.prop d) →
      d._setf = some g → g s v = .error e → (∀ args, e ≠ .dbusException args) →
      (Object.Set c chain s iface pn v).1 =
        ⟨.error (setFailedExc iface pn e), [], true⟩) := by
  constructor
  · intro props nm d f e h0 h1 h2 h3 h4 h5
    have hga : getattrI c s nm = .error e := by
      rw [getattrI_of_prop c s nm d h2]
      unfold property.__get__
      rw [h3]
      exact h4
    show Object.GetBody c (Object._get_property_iface_map c chain).pif s iface pn = _
    cases e with
    | dbusException args => exact absurd rfl (h5 args)
    | typeError m => simp [Object.GetBody, h0, h1, hga]
    | userError r => simp [Object.GetBody, h0, h1, hga]
  · intro props nm d g e h0 h1 h2 h3 h4 h5
    have hsa : setattrI c s nm v = .error e := by
      rw [setattrI_of_prop c s nm v d h2]
      unfold property.__set__
      rw [h3]
      exact h4
    show Object.SetBody c (Object._get_property_iface_map c chain).pif s iface pn v = _
    cases e with
    | dbusException args => exact absurd rfl (h5 args)
    | typeError m => simp [Object.SetBody, h0, h1, hsa]
    | userError r => simp [Object.SetBody, h0, h1, hsa]

/-- C4 witness: on `BadW`, whose accessors raise a foreign exception with
repr `ValueError(boom)`, `Get` and `Set` log and return the wrapped
accessor-failure errors. -/
theorem C4_witness :
    (Object.Get BadW [none] "x" "com.example.Widget" (some "bad")).1 =
      ⟨.error (getFailedExc "com.example.Widget" (some "bad")
        (.userError "ValueError(boom)")), true⟩ ∧
    (Object.Set BadW [none] "x" "com.example.Widget" (some "bad") "v").1 =
      ⟨.error (setFailedExc "com.example.Widget" (some "bad")
        (.userError "ValueError(boom)")), [], true⟩ :=
  ⟨(C4_runaway_wrapped_and_logged BadW [none] "x" "com.example.Widget"
      (some "bad") "v").1 [(some "bad", "bad")] "bad" badProp
      (fun _ => .error (.userError "ValueError(boom)"))
      (.userError "ValueError(boom)")
      (by decide) (by decide) rfl rfl rfl (fun args h => by cases h),
    (C4_runaway_wrapped_and_logged BadW [none] "x" "com.example.Widget"
      (some "bad") "v").2 [(some "bad", "bad")] "bad" badProp
      (fun _ _ => .error (.userError "ValueError(boom)"))
      (.userError "ValueError(boom)")
      (by decide) (by decide) rfl rfl rfl (fun args h => by cases h)⟩

/-- C6: a descriptor with a getter bound and no setter delegates reads to
the getter and fails writes with the not-writable DBusException; a
descriptor with a setter bound and no getter delegates writes to the
setter and fails reads with the not-readable DBusException. -/
theorem C6_accessor_mode_errors (d : property σ V) (s : σ) (v : V) :
    (∀ f, d._getf = some f → d._setf = none →
      d.__get__ s = f s ∧
      d.__set__ s v = .error (.dbusException ["property is not writable"])) ∧
    (∀ g, d._setf = some g → d._getf = none →
      d.__set__ s v = g s v ∧
      d.__get__ s = .error (.dbusException ["property is not readable"])) := by
  constructor
  · intro f hg hs
    constructor
    · unfold property.__get__
      rw [hg]
    · unfold property.__set__
      rw [hs]
  · intro g hs hg
    constructor
    · unfold property.__set__
      rw [hs]
    · unfold property.__get__
      rw [hg]

/-- C6 witness: the getter-only and setter-only example descriptors. -/
theorem C6_witness :
    getOnlyProp.__get__ "red" = exGetter "red" ∧
    getOnlyProp.__set__ "red" "blue" =
      .error (.dbusException ["property is not writable"]) ∧
    setOnlyProp.__set__ "red" "blue" = exSetter "red" "blue" ∧
    setOnlyProp.__get__ "red" =
      .error (.dbusException ["property is not readable"]) :=
  ⟨((C6_accessor_mode_errors getOnlyProp "red" "blue").1 exGetter rfl rfl).1,
    ((C6_accessor_mode_errors getOnlyProp "red" "blue").1 exGetter rfl rfl).2,
    ((C6_accessor_mode_errors setOnlyProp "red" "blue").2 exSetter rfl rfl).1,
    ((C6_accessor_mode_errors setOnlyProp "red" "blue").2 exSetter rfl rfl).2⟩

/-- C7 counterexample: a descriptor with neither accessor bound does make
the access-mode computation fail with a TypeError, but the failure does
not surface at index-build time: `_build_property_iface_map` on a class
declaring such a descriptor succeeds and silently indexes it, contrary to
the claim. -/
theorem C7_counterexample :
    noneProp.dbus_access_flag =
      .error (.typeError "property provides neither readable nor writable") ∧
    Object._build_property_iface_map BadDecl =
      [("com.example.Bad", [(some "bad", "bad")])] :=
  ⟨rfl, by decide⟩

/-- C7, amended: the access-mode computation returns `read` for
getter-only, `write` for setter-only and `readwrite` for both; with
neither accessor it fails with a TypeError — but the index build never
computes the access mode, so such a descriptor is indexed without error
and the failure surfaces only when the flag is computed, e.g. during
introspection's property reflection. -/
theorem C7_access_flag_modes (d : property σ V) (c : PyClass σ V) (nm : String) :
    (∀ f g, d._getf = some f → d._setf = some g →
      d.dbus_access_flag = .ok "readwrite") ∧
    (∀ f, d._getf = some f → d._setf = none → d.dbus_access_flag = .ok "read") ∧
    (∀ g, d._getf = none → d._setf = some g → d.dbus_access_flag = .ok "write") ∧
    (d._getf = none → d._setf = none →
      d.dbus_access_flag =
        .error (.typeError "property provides neither readable nor writable") ∧
      _reflect_on_property d =
        .error (.typeError "property provides neither readable nor writable") ∧
      (alFind c.ownDict nm = some (Attr.prop d) →
        pifLookup (Object._build_property_iface_map c)
          d._dbus_interface d._dbus_property ≠ none)) := by
  refine ⟨?_, ?_, ?_, ?_⟩
  · intro f g hf hg
    unfold property.dbus_access_flag
    rw [hf, hg]
  · intro f hf hs
    unfold property.dbus_access_flag
    rw [hf, hs]
  · intro g hf hs
    unfold property.dbus_access_flag
    rw [hf, hs]
  · intro hf hs
    have hflag : d.dbus_access_flag =
        .error (.typeError "property provides neither readable nor writable") := by
      unfold property.dbus_access_flag
      rw [hf, hs]
    refine ⟨hflag, ?_, ?_⟩
    · unfold _reflect_on_property
      rw [hflag]
    · intro hown
      exact (build_key_iff c _ _).mpr ⟨nm, d, hown, rfl, rfl⟩

/-- C7 witness: the accessor-less `noneProp` on `BadDecl`: the flag and
the introspection fragment fail, yet its key is present in the built
index. -/
theorem C7_witness :
    noneProp.dbus_access_flag =
      .error (.typeError "property provides neither readable nor writable") ∧
    _reflect_on_property noneProp =
      .error (.typeError "property provides neither readable nor writable") ∧
    pifLookup (Object._build_property_iface_map BadDecl)
      "com.example.Bad" (some "bad") ≠ none :=
  ⟨((C7_access_flag_modes noneProp BadDecl "bad").2.2.2 rfl rfl).1,
    ((C7_access_flag_modes noneProp BadDecl "bad").2.2.2 rfl rfl).2.1,
    ((C7_access_flag_modes noneProp BadDecl "bad").2.2.2 rfl rfl).2.2 rfl⟩

/-- C8: `Set` never emits a `PropertiesChanged` signal of its own: on
every lookup failure, missing accessor, failing setter, or non-descriptor
target the emitted signal list is empty, and when the setter runs, the
emitted signals are exactly the ones the setter itself chose to emit. -/
theorem C8_set_never_implicitly_notifies (c : PyClass σ V) (chain : CacheChain)
    (s : σ) (iface : String) (pn : PropName) (v : V) :
    (alFind (Object._get_property_iface_map c chain).pif iface = none →
      (Object.Set c chain s iface pn v).1.signals = []) ∧
    (∀ props, alFind (Object._get_property_iface_map c chain).pif iface = some props →
      alFind props pn = none →
      (Object.Set c chain s iface pn v).1.signals = []) ∧
    (∀ props nm, alFind (Object._get_property_iface_map c chain).pif iface = some props →
      alFind props pn = some nm →
      (classAttr c nm = none ∨ classAttr c nm = some Attr.plain) →
      (Object.Set c chain s iface pn v).1.signals = []) ∧
    (∀ props nm d, alFind (Object._get_property_iface_map c chain).pif iface = some props →
      alFind props pn = some nm →
      classAttr c nm = some (Attr.prop d) → d._setf = none →
      (Object.Set c chain s iface pn v).1.signals = []) ∧
    (∀ props nm d g s2 sigs,
      alFind (Object._get_property_iface_map c chain).pif iface = some props →
      alFind props pn = some nm →
      classAttr c nm = some (Attr.prop d) → d._setf = some g →
      g s v = .ok (s2, sigs) →
      (Object.Set c chain s iface pn v).1.signals = sigs) ∧
    (∀ props nm d g e,
      alFind (Object._get_property_iface_map c chain).pif iface = some props →
      alFind props pn = some nm →
      classAttr c nm = some (Attr.prop d) → d._setf = some g →
      g s v = .error e →
      (Object.Set c chain s iface pn v).1.signals = []) := by
  refine ⟨?_, ?_, ?_, ?_, ?_, ?_⟩
  · intro h0
    show (Object.SetBody c (Object._get_property_iface_map c chain).pif s iface pn v).signals = _
    simp [Object.SetBody, h0]
  · intro props h0 h1
    show (Object.SetBody c (Object._get_property_iface_map c chain).pif s iface pn v).signals = _
    simp [Object.SetBody, h0, h1]
  · intro props nm h0 h1 h2
    have hsa : setattrI c s nm v = .ok (s, []) := by
      unfold setattrI
      cases h2 with
      | inl h => rw [h]
      | inr h => rw [h]
    show (Object.SetBody c (Object._get_property_iface_map c chain).pif s iface pn v).signals = _
    simp [Object.SetBody, h0, h1, hsa]
  · intro props nm d h0 h1 h2 h3
    have hsa : setattrI c s nm v =
        .error (.dbusException ["property is not writable"]) := by
      rw [setattrI_of_prop c s nm v d h2]
      unfold property.__set__
      rw [h3]
    show (Object.SetBody c (Object._get_property_iface_map c chain).pif s iface pn v).signals = _
    simp [Object.SetBody, h0, h1, hsa]
  · intro props nm d g s2 sigs h0 h1 h2 h3 h4
    have hsa : setattrI c s nm v = .ok (s2, sigs) := by
      rw [setattrI_of_prop c s nm v d h2]
      unfold property.__set__
      rw [h3]
      exact h4
    show (Object.SetBody c (Object._get_property_iface_map c chain).pif s iface pn v).signals = _
    simp [Object.SetBody, h0, h1, hsa]
  · intro props nm d g e h0 h1 h2 h3 h4
    have hsa : setattrI c s nm v = .error e := by
      rw [setattrI_of_prop c s nm v d h2]
      unfold property.__set__
      rw [h3]
      exact h4
    show (Object.SetBody c (Object._get_property_iface_map c chain).pif s iface pn v).signals = _
    cases e with
    | dbusException args => simp [Object.SetBody, h0, h1, hsa]
    | typeError m => simp [Object.SetBody, h0, h1, hsa]
    | userError r => simp [Object.SetBody, h0, h1, hsa]

/-- C8 witness: on `NotifyW`, whose setter emits one signal explicitly,
`Set` emits exactly that one signal and nothing else. -/
theorem C8_witness :
    (Object.Set NotifyW [none] "red" "com.example.Widget"
      (some "notified") "blue").1.signals =
      [Object.PropertiesChanged "com.example.Widget" [("notified", "blue")] []] :=
  (C8_set_never_implicitly_notifies NotifyW [none] "red" "com.example.Widget"
    (some "notified") "blue").2.2.2.2.1 [(some "notified", "notified")]
    "notified" notifyProp notifySetter "blue"
    [Object.PropertiesChanged "com.example.Widget" [("notified", "blue")] []]
    (by decide) (by decide) rfl rfl rfl

/-- C10: a DBusException raised by a user-supplied getter or setter
propagates through `Get` and `Set` unchanged: it is re-raised verbatim,
without logging and without being wrapped into the accessor-failure
error. -/
theorem C10_dbus_exceptions_pass_through (c : PyClass σ V) (chain : CacheChain)
    (s : σ) (iface : String) (pn : PropName) (v : V) :
    (∀ props nm d f args,
      alFind (Object._get_property_iface_map c chain).pif iface = some props →
      alFind props pn = some nm →
      classAttr c nm = some (Attr.prop d) →
      d._getf = some f → f s = .error (.dbusException args) →
      (Object.Get c chain s iface pn).1 =
        ⟨.error (.dbusException args), false⟩) ∧
    (∀ props nm d g args,
      alFind (Object._get_property_iface_map c chain).pif iface = some props →
      alFind props pn = some nm →
      classAttr c nm = some (Attr.prop d) →
      d._setf = some g → g s v = .error (.dbusException args) →
      (Object.Set c chain s iface pn v).1 =
        ⟨.error (.dbusException args), [], false⟩) := by
  constructor
  · intro props nm d f args h0 h1 h2 h3 h4
    have hga : getattrI c s nm = .error (.dbusException args) := by
      rw [getattrI_of_prop c s nm d h2]
      unfold property.__get__
      rw [h3]
      exact h4
    show Object.GetBody c (Object._get_property_iface_map c chain).pif s iface pn = _
    simp [Object.GetBody, h0, h1, hga]
  · intro props nm d g args h0 h1 h2 h3 h4
    have hsa : setattrI c s nm v = .error (.dbusException args) := by
      rw [setattrI_of_prop c s nm v d h2]
      unfold property.__set__
      rw [h3]
      exact h4
    show Object.SetBody c (Object._get_property_iface_map c chain).pif s iface pn v = _
    simp [Object.SetBody, h0, h1, hsa]

/-- C10 witness: on `GuardedW`, whose accessors raise a custom
DBusException, `Get` and `Set` deliver exactly that exception, unlogged
and unwrapped. -/
theorem C10_witness :
    (Object.Get GuardedW [none] "x" "com.example.Widget" (some "guarded")).1 =
      ⟨.error (.dbusException ["org.example.Error.Denied", "nope"]), false⟩ ∧
    (Object.Set GuardedW [none] "x" "com.example.Widget" (some "guarded") "v").1 =
      ⟨.error (.dbusException ["org.example.Error.Denied", "nope"]), [], false⟩ :=
  ⟨(C10_dbus_exceptions_pass_through GuardedW [none] "x" "com.example.Widget"
      (some "guarded") "v").1 [(some "guarded", "guarded")] "guarded"
      dbusRaisingProp (fun _ => .error (.dbusException ["org.example.Error.Denied", "nope"]))
      ["org.example.Error.Denied", "nope"] (by decide) (by decide) rfl rfl rfl,
    (C10_dbus_exceptions_pass_through GuardedW [none] "x" "com.example.Widget"
      (some "guarded") "v").2 [(some "guarded", "guarded")] "guarded"
      dbusRaisingProp (fun _ _ => .error (.dbusException ["org.example.Error.Denied", "nope"]))
      ["org.example.Error.Denied", "nope"] (by decide) (by decide) rfl rfl rfl⟩

end Plainbox
